import Mathlib

/-!
Verification of the seeded star-system generator and the Keplerian orbital
propagator of this repository.

The JavaScript source is shallowly embedded as follows:

* JavaScript numbers are modelled as exact rationals; every numeric literal
  denotes the rational it writes (the binary double rounding of constants such
  as 0.3 never changes any comparison reachable from a 32-bit stream output,
  because the stream grid has spacing 2 ^ (-32), far coarser than the rounding
  error of the literals).
* The xorshift32 stream state is a natural number below 2 ^ 32 holding the
  32-bit pattern; JavaScript signed/unsigned coercions preserve the pattern,
  so the Nat model is bit-exact.
* Math.PI is the IEEE-754 double nearest pi, an explicit rational jsPI.
* The one irrational derived quantity, orbitSpeed = 12 / sqrt(orbitRadius + 1)
  (SystemGenerator.js line 133, no stream draw involved), is kept as the
  derived function PlanetCfg.orbitSpeed over the reals so that the rest of the
  generator stays executable.
* The JavaScript remainder operator is jsMod (truncated division remainder),
  Math.floor is the rational floor, Math.round q is the floor of q + 1/2.
-/

namespace SpaceGen

/-- The 32-bit mask, modelling the bit pattern kept by JavaScript ToUint32 and
ToInt32 coercions. -/
def mask32 (n : Nat) : Nat := n % 4294967296

/-- One step of the xorshift32 generator of SystemGenerator.js, makeRng:
x ^= x << 13; x ^= x >>> 17; x ^= x << 5, all on 32-bit patterns. -/
def xorshift32 (x : Nat) : Nat :=
  let a := mask32 (x ^^^ mask32 (x <<< 13))
  let b := a ^^^ (a >>> 17)
  mask32 (b ^^^ mask32 (b <<< 5))

/-- The stream draw of makeRng: advance the state and return (x >>> 0) / 2^32
together with the new state. -/
def nextU (x : Nat) : ℚ × Nat :=
  let x1 := xorshift32 x
  ((x1 : ℚ) / 4294967296, x1)

/-- makeRandUtils.rand: rng() * (max - min) + min. -/
def rand (lo hi : ℚ) (x : Nat) : ℚ × Nat :=
  let u := nextU x
  (u.1 * (hi - lo) + lo, u.2)

/-- makeRandUtils.randInt: Math.floor(rand(min, max + 1)). -/
def randIntJS (lo hi : ℚ) (x : Nat) : ℤ × Nat :=
  let v := rand lo (hi + 1) x
  (⌊v.1⌋, v.2)

/-- makeRandUtils.choice: arr[randInt(0, arr.length - 1)]. -/
def choiceJS (arr : List String) (x : Nat) : String × Nat :=
  let i := randIntJS 0 ((arr.length : ℚ) - 1) x
  (arr.getD i.1.toNat "", i.2)

/-- Truncation toward zero, the rounding used by the JavaScript remainder. -/
def jsTrunc (q : ℚ) : ℤ := if 0 ≤ q then ⌊q⌋ else ⌈q⌉

/-- The JavaScript remainder operator a % b (sign follows the dividend). -/
def jsMod (a b : ℚ) : ℚ := a - b * jsTrunc (a / b)

/-- Math.round: round half toward positive infinity. -/
def jsRound (q : ℚ) : ℤ := ⌊q + 1 / 2⌋

/-- hslToHex of SystemGenerator.js: HSL to packed 0xRRGGBB. -/
def hslToHex (h0 s0 l0 : ℚ) : ℤ :=
  let h := jsMod h0 360
  let s := max 0 (min 1 s0)
  let l := max 0 (min 1 l0)
  let c := (1 - |2 * l - 1|) * s
  let x := c * (1 - |jsMod (h / 60) 2 - 1|)
  let m := l - c / 2
  let r := if h < 60 then c else if h < 120 then x else if h < 180 then (0 : ℚ)
    else if h < 240 then 0 else if h < 300 then x else c
  let g := if h < 60 then x else if h < 120 then c else if h < 180 then c
    else if h < 240 then x else if h < 300 then (0 : ℚ) else 0
  let b := if h < 60 then (0 : ℚ) else if h < 120 then 0 else if h < 180 then x
    else if h < 240 then c else if h < 300 then c else x
  jsRound ((r + m) * 255) * 65536 + jsRound ((g + m) * 255) * 256 + jsRound ((b + m) * 255)

/-- The planet type classification of the generator. -/
inductive PlanetType where
  | rocky
  | ice
  | gas
  deriving DecidableEq, Repr, Inhabited

/-- Optional planetary ring record. -/
structure RingCfg where
  innerRadius : ℚ
  outerRadius : ℚ
  color : ℤ
  opacity : ℚ
  deriving DecidableEq, Repr

/-- Optional atmosphere record. -/
structure AtmosphereCfg where
  thickness : ℚ
  color : ℤ
  intensity : ℚ
  fresnelPower : ℚ
  deriving DecidableEq, Repr

/-- The per-planet configuration record pushed by randomPlanetConfigs.  The
orbitSpeed entry of the JavaScript object is the irrational
12 / sqrt(orbitRadius + 1), a pure function of orbitRadius drawing nothing
from the stream; it is kept as the derived function PlanetCfg.orbitSpeed. -/
structure PlanetCfg where
  name : String
  radius : ℚ
  color : ℤ
  orbitRadius : ℚ
  rotationSpeed : ℚ
  tilt : ℚ
  ring : Option RingCfg
  atmosphere : Option AtmosphereCfg
  planetType : PlanetType
  seed : ℚ
  eccentricity : ℚ
  inclination : ℚ
  ascendingNode : ℚ
  argPeriapsis : ℚ
  initialAnomaly : ℚ
  deriving DecidableEq, Repr, Inhabited

/-- orbitSpeed = 12 / Math.sqrt(orbitRadius + 1) (SystemGenerator.js line 133). -/
noncomputable def PlanetCfg.orbitSpeed (p : PlanetCfg) : ℝ :=
  12 / Real.sqrt ((p.orbitRadius : ℝ) + 1)

/-- The star record of randomStar. -/
structure StarCfg where
  radius : ℚ
  color : ℤ
  lightColor : ℤ
  lightIntensity : ℤ
  deriving DecidableEq, Repr

/-- The full system description returned by generateSystem. -/
structure SystemDesc where
  sun : StarCfg
  planets : List PlanetCfg
  maxOrbit : ℚ
  seed : Nat
  deriving DecidableEq, Repr

/-- randomStar: hue, saturation, lightness, colors, radius, light intensity. -/
def randomStar (x : Nat) : StarCfg × Nat :=
  let hue := rand 20 65 x
  let saturation := rand 0.6 0.95 hue.2
  let lightness := rand 0.5 0.7 saturation.2
  let color := hslToHex hue.1 saturation.1 lightness.1
  let lightColor := hslToHex hue.1 0.9 0.75
  let radius := rand 7 16 lightness.2
  let lightIntensity := jsRound (1200 + radius.1 ^ 2 * 12)
  ({ radius := radius.1, color := color, lightColor := lightColor,
     lightIntensity := lightIntensity }, radius.2)

/-- The first syllable pool of randomName. -/
def syllA : List String :=
  ["Ar", "Bel", "Cor", "Dar", "El", "Fen", "Gim", "Hel", "Ian", "Jar", "Kor",
   "Lum", "Mor", "Ner", "Or", "Pra", "Qua", "Rin", "Sol", "Tor", "Ur", "Vor",
   "Wen", "Xan", "Yor", "Zel"]

/-- The second syllable pool of randomName. -/
def syllB : List String := ["a", "e", "i", "o", "u", "ae", "ia", "eo", "ou"]

/-- The third syllable pool of randomName. -/
def syllC : List String :=
  ["nos", "dun", "mir", "the", "ion", "mar", "tis", "phos", "x", "zar", "ron",
   "nix", "lith", "bor", "cus"]

/-- randomName: three syllables, plus a fourth with probability 0.3. -/
def randomName (x : Nat) : String × Nat :=
  let a := choiceJS syllA x
  let b := choiceJS syllB a.2
  let c := choiceJS syllC b.2
  let t := rand 0 1 c.2
  if t.1 < 0.3 then
    let d := choiceJS syllC t.2
    (a.1 ++ b.1 ++ c.1 ++ d.1, d.2)
  else
    (a.1 ++ b.1 ++ c.1, t.2)

/-- The middle-band type rule of randomPlanetConfigs (orbital indices 2 and 3):
rand(0, 1) < 0.3 ? ice : rocky. -/
def midBandType (u : ℚ) : PlanetType := if u < 0.3 then .ice else .rocky

/-- The outer-band type rule of randomPlanetConfigs (orbital indices 4 and up):
typeRoll < 0.6 ? gas : ice. -/
def outerBandType (u : ℚ) : PlanetType := if u < 0.6 then .gas else .ice

/-- The type-and-radius block of randomPlanetConfigs (lines 82 to 103).  Every
planet first draws the initial radius rand(0.4, 1.8), which each branch then
overwrites with a band-specific draw. -/
def typeAndRadius (i : Nat) (x : Nat) : PlanetType × ℚ × Nat :=
  let r0 := rand 0.4 1.8 x
  if i < 2 then
    let r := rand 0.4 1.2 r0.2
    (.rocky, r.1, r.2)
  else if i < 4 then
    let u := rand 0 1 r0.2
    let r := rand 0.8 1.8 u.2
    (midBandType u.1, r.1, r.2)
  else
    let u := rand 0 1 r0.2
    if u.1 < 0.6 then
      let r := rand 2.0 4.5 u.2
      (.gas, r.1, r.2)
    else
      let r := rand 1.0 2.2 u.2
      (.ice, r.1, r.2)

/-- The per-type hue, saturation and lightness draws of randomPlanetConfigs. -/
def colorDraws (pt : PlanetType) (x : Nat) : ℚ × ℚ × ℚ × Nat :=
  match pt with
  | .gas =>
    let h := rand 20 60 x
    let s := rand 0.4 0.8 h.2
    let l := rand 0.4 0.7 s.2
    (h.1, s.1, l.1, l.2)
  | .ice =>
    let h := rand 180 240 x
    let s := rand 0.3 0.7 h.2
    let l := rand 0.6 0.9 s.2
    (h.1, s.1, l.1, l.2)
  | .rocky =>
    let h := rand 0 360 x
    let s := rand 0.3 0.9 h.2
    let l := rand 0.3 0.7 s.2
    (h.1, s.1, l.1, l.2)

/-- ringChance: 0.4 for gas planets, 0.15 otherwise. -/
def ringChance (pt : PlanetType) : ℚ := if pt = .gas then 0.4 else 0.15

/-- The ring block of randomPlanetConfigs (lines 144 to 154): the ring is
built only when the dedicated draw is under ringChance AND radius > 1.2. -/
def ringOf (pt : PlanetType) (radius hue sat light : ℚ) (draw : ℚ) (x : Nat) :
    Option RingCfg × Nat :=
  if draw < ringChance pt ∧ radius > 1.2 then
    let ir := rand 1.2 1.5 x
    let outr := rand 1.8 2.6 ir.2
    let op := rand 0.35 0.65 outr.2
    (some { innerRadius := radius * ir.1, outerRadius := radius * outr.1,
            color := hslToHex hue (min 1 (sat * 0.6)) (min 1 (light + 0.2)),
            opacity := op.1 }, op.2)
  else (none, x)

/-- The atmosphere block of randomPlanetConfigs (lines 157 to 173): always for
gas planets, with probability 0.3 for rocky planets, never for ice planets. -/
def atmosphereOf (pt : PlanetType) (radius : ℚ) (color : ℤ) (x : Nat) :
    Option AtmosphereCfg × Nat :=
  match pt with
  | .gas =>
    let th := rand 0.08 0.15 x
    let it := rand 0.2 0.4 th.2
    let fp := rand 1.5 2.5 it.2
    (some { thickness := radius * th.1, color := color, intensity := it.1,
            fresnelPower := fp.1 }, fp.2)
  | .rocky =>
    let u := rand 0 1 x
    if u.1 < 0.3 then
      let th := rand 0.05 0.1 u.2
      let it := rand 0.6 1.0 th.2
      let fp := rand 2.0 3.5 it.2
      (some { thickness := radius * th.1, color := 0x88ccff, intensity := it.1,
              fresnelPower := fp.1 }, fp.2)
    else (none, u.2)
  | .ice => (none, x)

/-- The IEEE-754 double closest to pi, the value of Math.PI. -/
def jsPI : ℚ := 884279719003555 / 281474976710656

/-- One loop iteration body of randomPlanetConfigs: build the planet at
orbital index i whose orbit cursor is orbit, threading the stream state. -/
def mkPlanet (i : Nat) (orbit : ℚ) (x0 : Nat) : PlanetCfg × Nat :=
  let nm := randomName x0
  let tr := typeAndRadius i nm.2
  let radius := tr.2.1
  let hsl := colorDraws tr.1 tr.2.2
  let color := hslToHex hsl.1 hsl.2.1 hsl.2.2.1
  let rs := rand 0.5 3.5 hsl.2.2.2
  let tl := rand (-0.6) 0.6 rs.2
  let ec := rand 0.0 0.35 tl.2
  let inc := rand (-0.22) 0.22 ec.2
  let an := rand 0 (jsPI * 2) inc.2
  let ap := rand 0 (jsPI * 2) an.2
  let ia := rand 0 (jsPI * 2) ap.2
  let rd := rand 0 1 ia.2
  let rg := ringOf tr.1 radius hsl.1 hsl.2.1 hsl.2.2.1 rd.1 rd.2
  let atm := atmosphereOf tr.1 radius color rg.2
  let sd := rand 0 1000 atm.2
  ({ name := nm.1, radius := radius, color := color, orbitRadius := orbit,
     rotationSpeed := rs.1, tilt := tl.1, ring := rg.1, atmosphere := atm.1,
     planetType := tr.1, seed := sd.1,
     eccentricity := max 0 (min 0.45 ec.1), inclination := inc.1,
     ascendingNode := an.1, argPeriapsis := ap.1, initialAnomaly := ia.1 },
   sd.2)

/-- The band type draw of the planet built from stream state x0: the
rand(0, 1) consumed by the type ternaries of lines 91 and 95 of
SystemGenerator.js, which happens right after the name draws and the
discarded initial radius draw rand(0.4, 1.8) of line 83.  It is consumed
exactly when the orbital index is 2 or more. -/
def bandTypeDraw (x0 : Nat) : ℚ :=
  (rand 0 1 (rand 0.4 1.8 (randomName x0).2).2).1

/-- The cursor advance at the end of one loop iteration (line 195 of
SystemGenerator.js): orbit += rand(6, 12) + radius * 1.5, drawn after all of
the planet's own draws. -/
def orbitAdvance (i : Nat) (orbit : ℚ) (x : Nat) : ℚ :=
  orbit + ((rand 6 12 (mkPlanet i orbit x).2).1 + (mkPlanet i orbit x).1.radius * 1.5)

/-- The planet loop of randomPlanetConfigs: fuel iterations remain, i is the
current orbital index, orbit the cursor, maxOrbit the running maximum.  After
each planet the cursor advances by orbitAdvance and maxOrbit is raised to the
new cursor when larger (line 196). -/
def genPlanets : Nat → Nat → ℚ → ℚ → Nat → List PlanetCfg × ℚ × Nat
  | 0, _, _, maxOrbit, x => ([], maxOrbit, x)
  | fuel + 1, i, orbit, maxOrbit, x =>
    let orbit1 := orbitAdvance i orbit x
    let rest := genPlanets fuel (i + 1) orbit1
      (if orbit1 > maxOrbit then orbit1 else maxOrbit) (rand 6 12 (mkPlanet i orbit x).2).2
    ((mkPlanet i orbit x).1 :: rest.1, rest.2.1, rest.2.2)

/-- randomPlanetConfigs: numPlanets = randInt(4, 10), initial cursor
starRadius * 2.5 + rand(6, 12), then the planet loop. -/
def randomPlanetConfigs (starRadius : ℚ) (x : Nat) : List PlanetCfg × ℚ × Nat :=
  let np := randIntJS 4 10 x
  let o0 := rand 6 12 np.2
  let orbit := starRadius * 2.5 + o0.1
  genPlanets np.1.toNat 0 orbit orbit o0.2

/-- stringToSeed: FNV-1a-style fold over the UTF-16 code units of the string,
h = 2166136261; per unit h ^= code; h = Math.imul(h, 16777619), final h >>> 0.
A string is modelled as its list of code units. -/
def stringToSeed (codes : List Nat) : Nat :=
  codes.foldl (fun h c => mask32 ((h ^^^ c) * 16777619)) 2166136261

/-- The body of generateSystem after seed resolution: makeRng substitutes
123456789 for a zero 32-bit state, then the star and the planets are drawn
from the single stream; the raw seed value is stored in the result. -/
def generateFrom (seedValue : Nat) : SystemDesc :=
  let x0 := if mask32 seedValue = 0 then 123456789 else mask32 seedValue
  let sun := randomStar x0
  let rest := randomPlanetConfigs sun.1.radius sun.2
  { sun := sun.1, planets := rest.1, maxOrbit := rest.2.1, seed := seedValue }

/-- generateSystem on a numeric seed: the number is used directly. -/
def generateSystemNum (seed : Nat) : SystemDesc := generateFrom seed

/-- generateSystem on a string seed: the string is hashed by stringToSeed. -/
def generateSystemStr (codes : List Nat) : SystemDesc :=
  generateFrom (stringToSeed codes)

/-- THREE.MathUtils.clamp(value, 0, 0.95) as used by the Planet constructor
(Planet.js line 28): Math.max(0, Math.min(0.95, value)). -/
def clampEcc (e : ℚ) : ℚ := max 0 (min 0.95 e)

/-- The mean-anomaly wrap of Planet.update (Planet.js line 457):
(m % (2 pi) + 2 pi) % (2 pi) with the JavaScript remainder. -/
def wrapAnomaly (m : ℚ) : ℚ :=
  jsMod (jsMod m (jsPI * 2) + jsPI * 2) (jsPI * 2)

/-- One Planet.update step on the stored mean anomaly (Planet.js lines
456 to 457): add orbitSpeed * deltaSeconds, then wrap. -/
def stepMeanAnomaly (m orbitSpeed dt : ℚ) : ℚ :=
  wrapAnomaly (m + orbitSpeed * dt)

/-- The stored mean anomaly after a sequence of update calls with the given
deltaSeconds values. -/
def anomalyAfter (m0 orbitSpeed : ℚ) (dts : List ℚ) : ℚ :=
  dts.foldl (fun m dt => stepMeanAnomaly m orbitSpeed dt) m0

/-- The initial guess of the Kepler solver (Planet.js line 461):
E = e < 0.8 ? M : pi (over the reals, with the exact pi). -/
noncomputable def keplerGuess (e M : ℝ) : ℝ := if e < 0.8 then M else Real.pi

/-- One Newton-Raphson step of the Kepler solver (Planet.js lines 462 to 466). -/
noncomputable def keplerNewtonStep (e M E : ℝ) : ℝ :=
  E - (E - e * Real.sin E - M) / (1 - e * Real.cos E)

/-- The Kepler solver iterate: k Newton-Raphson steps from the initial guess. -/
noncomputable def keplerIterate (e M : ℝ) : Nat → ℝ
  | 0 => keplerGuess e M
  | k + 1 => keplerNewtonStep e M (keplerIterate e M k)

/-- The number of stream grid values u = n / 2^32 on which the middle-band
type rule picks ice. -/
def midBandIceCount : Nat :=
  ((Finset.range 4294967296).filter
    (fun (n : ℕ) => midBandType ((n : ℚ) / 4294967296) = PlanetType.ice)).card

/-- The number of stream grid values u = n / 2^32 on which the middle-band
type rule picks rocky. -/
def midBandRockyCount : Nat :=
  ((Finset.range 4294967296).filter
    (fun (n : ℕ) => midBandType ((n : ℚ) / 4294967296) = PlanetType.rocky)).card

/-! ## Basic stream bounds -/

lemma xorshift32_lt (x : Nat) : xorshift32 x < 4294967296 :=
  Nat.mod_lt _ (by norm_num)

lemma nextU_fst_nonneg (x : Nat) : 0 ≤ (nextU x).1 := by
  show (0 : ℚ) ≤ (xorshift32 x : ℚ) / 4294967296
  positivity

lemma nextU_fst_lt_one (x : Nat) : (nextU x).1 < 1 := by
  show ((xorshift32 x : ℚ) / 4294967296) < 1
  rw [div_lt_one (by norm_num)]
  exact_mod_cast xorshift32_lt x

lemma rand_fst_lb (lo hi : ℚ) (x : Nat) (h : lo ≤ hi) : lo ≤ (rand lo hi x).1 := by
  show lo ≤ (nextU x).1 * (hi - lo) + lo
  have h1 := nextU_fst_nonneg x
  nlinarith

lemma rand_fst_ub (lo hi : ℚ) (x : Nat) (h : lo < hi) : (rand lo hi x).1 < hi := by
  show (nextU x).1 * (hi - lo) + lo < hi
  have h1 := nextU_fst_lt_one x
  have h2 := nextU_fst_nonneg x
  nlinarith

/-! ## JavaScript remainder bounds -/

lemma jsMod_lb_ub (a b : ℚ) (hb : 0 < b) : -b < jsMod a b ∧ jsMod a b < b := by
  unfold jsMod jsTrunc
  have hab : b * (a / b) = a := by field_simp
  by_cases h : 0 ≤ a / b
  · rw [if_pos h]
    have hf1 : (⌊a / b⌋ : ℚ) ≤ a / b := Int.floor_le _
    have hf2 : a / b - 1 < ⌊a / b⌋ := Int.sub_one_lt_floor _
    have h2 := mul_le_mul_of_nonneg_left hf1 hb.le
    have h3 := mul_lt_mul_of_pos_left hf2 hb
    constructor <;> nlinarith
  · rw [if_neg h]
    have hf1 : a / b ≤ (⌈a / b⌉ : ℚ) := Int.le_ceil _
    have hf2 : (⌈a / b⌉ : ℚ) < a / b + 1 := Int.ceil_lt_add_one _
    have h2 := mul_le_mul_of_nonneg_left hf1 hb.le
    have h3 := mul_lt_mul_of_pos_left hf2 hb
    constructor <;> nlinarith

lemma jsMod_nonneg_lt (a b : ℚ) (hb : 0 < b) (ha : 0 ≤ a) :
    0 ≤ jsMod a b ∧ jsMod a b < b := by
  unfold jsMod jsTrunc
  have ht : 0 ≤ a / b := div_nonneg ha hb.le
  rw [if_pos ht]
  have hab : b * (a / b) = a := by field_simp
  have hf1 : (⌊a / b⌋ : ℚ) ≤ a / b := Int.floor_le _
  have hf2 : a / b - 1 < ⌊a / b⌋ := Int.sub_one_lt_floor _
  have h2 := mul_le_mul_of_nonneg_left hf1 hb.le
  have h3 := mul_lt_mul_of_pos_left hf2 hb
  constructor <;> nlinarith

lemma twoPi_pos : (0 : ℚ) < jsPI * 2 := by norm_num [jsPI]

lemma wrapAnomaly_mem (m : ℚ) : 0 ≤ wrapAnomaly m ∧ wrapAnomaly m < jsPI * 2 := by
  unfold wrapAnomaly
  have h1 := jsMod_lb_ub m (jsPI * 2) twoPi_pos
  exact jsMod_nonneg_lt (jsMod m (jsPI * 2) + jsPI * 2) (jsPI * 2) twoPi_pos
    (by linarith [h1.1])

lemma anomalyAfter_cons_mem (s : ℚ) : ∀ (dts : List ℚ) (m0 d : ℚ),
    0 ≤ anomalyAfter m0 s (d :: dts) ∧ anomalyAfter m0 s (d :: dts) < jsPI * 2 := by
  intro dts
  induction dts with
  | nil =>
    intro m0 d
    simpa [anomalyAfter, stepMeanAnomaly] using wrapAnomaly_mem (m0 + s * d)
  | cons e es ih =>
    intro m0 d
    simpa [anomalyAfter] using ih (stepMeanAnomaly m0 s d) e

/-! ## Generator loop lemmas -/

lemma randIntJS_4_10 (x : Nat) : 4 ≤ (randIntJS 4 10 x).1 ∧ (randIntJS 4 10 x).1 ≤ 10 := by
  have h0 := nextU_fst_nonneg x
  have h1 := nextU_fst_lt_one x
  constructor
  · show (4 : ℤ) ≤ ⌊(rand 4 (10 + 1) x).1⌋
    rw [Int.le_floor]
    show ((4 : ℤ) : ℚ) ≤ (nextU x).1 * ((10 + 1) - 4) + 4
    push_cast
    nlinarith
  · show ⌊(rand 4 (10 + 1) x).1⌋ ≤ 10
    have hv : (rand 4 (10 + 1) x).1 < 11 := by
      show (nextU x).1 * ((10 + 1) - 4) + 4 < 11
      nlinarith
    have h2 : ⌊(rand 4 (10 + 1) x).1⌋ < 11 := by
      rw [Int.floor_lt]
      exact_mod_cast hv
    omega

lemma mkPlanet_orbitRadius (i : Nat) (orbit : ℚ) (x : Nat) :
    (mkPlanet i orbit x).1.orbitRadius = orbit := rfl

lemma mkPlanet_radius (i : Nat) (orbit : ℚ) (x : Nat) :
    (mkPlanet i orbit x).1.radius = (typeAndRadius i (randomName x).2).2.1 := rfl

lemma mkPlanet_planetType (i : Nat) (orbit : ℚ) (x : Nat) :
    (mkPlanet i orbit x).1.planetType = (typeAndRadius i (randomName x).2).1 := rfl

lemma typeAndRadius_radius_nonneg (i x : Nat) : 0 ≤ (typeAndRadius i x).2.1 := by
  simp only [typeAndRadius]
  split_ifs with h1 h2 h3
  · exact le_trans (by norm_num) (rand_fst_lb 0.4 1.2 _ (by norm_num))
  · exact le_trans (by norm_num) (rand_fst_lb 0.8 1.8 _ (by norm_num))
  · exact le_trans (by norm_num) (rand_fst_lb 2.0 4.5 _ (by norm_num))
  · exact le_trans (by norm_num) (rand_fst_lb 1.0 2.2 _ (by norm_num))

lemma mkPlanet_radius_nonneg (i : Nat) (orbit : ℚ) (x : Nat) :
    0 ≤ (mkPlanet i orbit x).1.radius := by
  rw [mkPlanet_radius]
  exact typeAndRadius_radius_nonneg i (randomName x).2

lemma orbitAdvance_lt (i : Nat) (orbit : ℚ) (x : Nat) : orbit < orbitAdvance i orbit x := by
  unfold orbitAdvance
  have h6 : (6 : ℚ) ≤ (rand 6 12 (mkPlanet i orbit x).2).1 := rand_fst_lb _ _ _ (by norm_num)
  have hr := mkPlanet_radius_nonneg i orbit x
  linarith

lemma genPlanets_length (fuel : Nat) : ∀ (i : Nat) (orbit mo : ℚ) (x : Nat),
    (genPlanets fuel i orbit mo x).1.length = fuel := by
  induction fuel with
  | zero => intro i orbit mo x; rfl
  | succ n ih =>
    intro i orbit mo x
    simp only [genPlanets, List.length_cons]
    rw [ih]

lemma genPlanets_orbit_lb (fuel : Nat) : ∀ (i : Nat) (orbit mo : ℚ) (x : Nat) (p : PlanetCfg),
    p ∈ (genPlanets fuel i orbit mo x).1 → orbit ≤ p.orbitRadius := by
  induction fuel with
  | zero => intro i orbit mo x p hp; simp [genPlanets] at hp
  | succ n ih =>
    intro i orbit mo x p hp
    simp only [genPlanets] at hp
    rcases List.mem_cons.mp hp with h | h
    · rw [h, mkPlanet_orbitRadius]
    · have h1 := orbitAdvance_lt i orbit x
      have h2 := ih (i + 1) (orbitAdvance i orbit x)
        (if orbitAdvance i orbit x > mo then orbitAdvance i orbit x else mo)
        (rand 6 12 (mkPlanet i orbit x).2).2 p h
      linarith

lemma genPlanets_chain (fuel : Nat) : ∀ (i : Nat) (orbit mo : ℚ) (x : Nat),
    List.Chain' (fun a b => a < b)
      ((genPlanets fuel i orbit mo x).1.map PlanetCfg.orbitRadius) := by
  induction fuel with
  | zero => intro i orbit mo x; simp [genPlanets]
  | succ n ih =>
    intro i orbit mo x
    simp only [genPlanets, List.map_cons]
    rw [mkPlanet_orbitRadius, List.chain'_cons']
    constructor
    · intro y hy
      rw [List.head?_map] at hy
      rcases hq : ((genPlanets n (i + 1) (orbitAdvance i orbit x)
          (if orbitAdvance i orbit x > mo then orbitAdvance i orbit x else mo)
          (rand 6 12 (mkPlanet i orbit x).2).2).1).head? with _ | q
      · rw [hq] at hy
        simp at hy
      · rw [hq] at hy
        simp only [Option.map_some', Option.mem_def, Option.some.injEq] at hy
        subst hy
        have hqmem : q ∈ (genPlanets n (i + 1) (orbitAdvance i orbit x)
            (if orbitAdvance i orbit x > mo then orbitAdvance i orbit x else mo)
            (rand 6 12 (mkPlanet i orbit x).2).2).1 := by
          exact List.mem_of_mem_head? hq
        have h1 := genPlanets_orbit_lb n (i + 1) (orbitAdvance i orbit x)
          (if orbitAdvance i orbit x > mo then orbitAdvance i orbit x else mo)
          (rand 6 12 (mkPlanet i orbit x).2).2 q hqmem
        have h2 := orbitAdvance_lt i orbit x
        linarith
    · exact ih (i + 1) (orbitAdvance i orbit x)
        (if orbitAdvance i orbit x > mo then orbitAdvance i orbit x else mo)
        (rand 6 12 (mkPlanet i orbit x).2).2

lemma genPlanets_mo_le (fuel : Nat) : ∀ (i : Nat) (orbit mo : ℚ) (x : Nat),
    mo ≤ (genPlanets fuel i orbit mo x).2.1 := by
  induction fuel with
  | zero => intro i orbit mo x; exact le_refl mo
  | succ n ih =>
    intro i orbit mo x
    simp only [genPlanets]
    by_cases hc : orbitAdvance i orbit x > mo
    · rw [if_pos hc]
      have h := ih (i + 1) (orbitAdvance i orbit x) (orbitAdvance i orbit x)
        (rand 6 12 (mkPlanet i orbit x).2).2
      linarith
    · rw [if_neg hc]
      exact ih (i + 1) (orbitAdvance i orbit x) mo (rand 6 12 (mkPlanet i orbit x).2).2

lemma genPlanets_lt_mo (fuel : Nat) : ∀ (i : Nat) (orbit mo : ℚ) (x : Nat), orbit ≤ mo →
    ∀ p ∈ (genPlanets fuel i orbit mo x).1,
      p.orbitRadius < (genPlanets fuel i orbit mo x).2.1 := by
  induction fuel with
  | zero => intro i orbit mo x _ p hp; simp [genPlanets] at hp
  | succ n ih =>
    intro i orbit mo x hom p hp
    simp only [genPlanets] at hp ⊢
    have hadv := orbitAdvance_lt i orbit x
    have hle1 : orbitAdvance i orbit x ≤
        (if orbitAdvance i orbit x > mo then orbitAdvance i orbit x else mo) := by
      by_cases hc : orbitAdvance i orbit x > mo
      · rw [if_pos hc]
      · rw [if_neg hc]
        push_neg at hc
        exact hc
    rcases List.mem_cons.mp hp with h | h
    · rw [h, mkPlanet_orbitRadius]
      have hmo := genPlanets_mo_le n (i + 1) (orbitAdvance i orbit x)
        (if orbitAdvance i orbit x > mo then orbitAdvance i orbit x else mo)
        (rand 6 12 (mkPlanet i orbit x).2).2
      linarith
    · exact ih (i + 1) (orbitAdvance i orbit x)
        (if orbitAdvance i orbit x > mo then orbitAdvance i orbit x else mo)
        (rand 6 12 (mkPlanet i orbit x).2).2 hle1 p h

lemma genPlanets_get? (fuel : Nat) : ∀ (i0 : Nat) (orbit mo : ℚ) (x j : Nat), j < fuel →
    ∃ (o : ℚ) (y : Nat),
      (genPlanets fuel i0 orbit mo x).1.get? j = some (mkPlanet (i0 + j) o y).1 := by
  induction fuel with
  | zero => intro i0 orbit mo x j hj; omega
  | succ n ih =>
    intro i0 orbit mo x j hj
    simp only [genPlanets]
    cases j with
    | zero => exact ⟨orbit, x, rfl⟩
    | succ m =>
      have hm : m < n := by omega
      obtain ⟨o, y, hoy⟩ := ih (i0 + 1) (orbitAdvance i0 orbit x)
        (if orbitAdvance i0 orbit x > mo then orbitAdvance i0 orbit x else mo)
        (rand 6 12 (mkPlanet i0 orbit x).2).2 m hm
      refine ⟨o, y, ?_⟩
      rw [List.get?_cons_succ]
      have harith : i0 + (m + 1) = (i0 + 1) + m := by omega
      rw [harith]
      exact hoy

lemma generate_length_eq (seed : Nat) :
    (generateSystemNum seed).planets.length =
      ((randIntJS 4 10
        (randomStar (if mask32 seed = 0 then 123456789 else mask32 seed)).2).1).toNat :=
  genPlanets_length _ _ _ _ _

lemma generate_length_bounds (seed : Nat) :
    4 ≤ (generateSystemNum seed).planets.length ∧
      (generateSystemNum seed).planets.length ≤ 10 := by
  have hx := randIntJS_4_10 (randomStar (if mask32 seed = 0 then 123456789 else mask32 seed)).2
  rw [generate_length_eq]
  omega

lemma generate_planets_getD (seed i : Nat) (hi : i < (generateSystemNum seed).planets.length) :
    ∃ (o : ℚ) (y : Nat),
      (generateSystemNum seed).planets.getD i default = (mkPlanet i o y).1 := by
  have hj : i < ((randIntJS 4 10
      (randomStar (if mask32 seed = 0 then 123456789 else mask32 seed)).2).1).toNat := by
    rw [← generate_length_eq]
    exact hi
  obtain ⟨o, y, hoy⟩ := genPlanets_get?
    (((randIntJS 4 10
      (randomStar (if mask32 seed = 0 then 123456789 else mask32 seed)).2).1).toNat) 0
    ((randomStar (if mask32 seed = 0 then 123456789 else mask32 seed)).1.radius * 2.5 +
      (rand 6 12 (randIntJS 4 10
        (randomStar (if mask32 seed = 0 then 123456789 else mask32 seed)).2).2).1)
    ((randomStar (if mask32 seed = 0 then 123456789 else mask32 seed)).1.radius * 2.5 +
      (rand 6 12 (randIntJS 4 10
        (randomStar (if mask32 seed = 0 then 123456789 else mask32 seed)).2).2).1)
    ((rand 6 12 (randIntJS 4 10
      (randomStar (if mask32 seed = 0 then 123456789 else mask32 seed)).2).2).2) i hj
  refine ⟨o, y, ?_⟩
  have hoy' : (generateSystemNum seed).planets.get? i = some (mkPlanet (0 + i) o y).1 := hoy
  rw [Nat.zero_add] at hoy'
  rw [List.getD_eq_getElem?_getD, ← List.get?_eq_getElem?, hoy', Option.getD_some]

lemma typeAndRadius_fst_inner (i x : Nat) (h : i < 2) :
    (typeAndRadius i x).1 = PlanetType.rocky := by
  simp only [typeAndRadius, if_pos h]

lemma typeAndRadius_fst_mid_eq (i x : Nat) (h2 : 2 ≤ i) (h4 : i < 4) :
    (typeAndRadius i x).1 = midBandType (rand 0 1 (rand 0.4 1.8 x).2).1 := by
  simp only [typeAndRadius, if_neg (show ¬ i < 2 by omega), if_pos h4]

lemma typeAndRadius_fst_outer_eq (i x : Nat) (h : 4 ≤ i) :
    (typeAndRadius i x).1 = outerBandType (rand 0 1 (rand 0.4 1.8 x).2).1 := by
  simp only [typeAndRadius, if_neg (show ¬ i < 2 by omega), if_neg (show ¬ i < 4 by omega)]
  by_cases hc : (rand 0 1 (rand 0.4 1.8 x).2).1 < 0.6
  · rw [if_pos hc]
    show PlanetType.gas = outerBandType _
    simp only [outerBandType, if_pos hc]
  · rw [if_neg hc]
    show PlanetType.ice = outerBandType _
    simp only [outerBandType, if_neg hc]

lemma mkPlanet_planetType_mid (i : Nat) (orbit : ℚ) (x : Nat) (h2 : 2 ≤ i) (h4 : i < 4) :
    (mkPlanet i orbit x).1.planetType = midBandType (bandTypeDraw x) := by
  rw [mkPlanet_planetType]
  exact typeAndRadius_fst_mid_eq i (randomName x).2 h2 h4

lemma mkPlanet_planetType_outer (i : Nat) (orbit : ℚ) (x : Nat) (h : 4 ≤ i) :
    (mkPlanet i orbit x).1.planetType = outerBandType (bandTypeDraw x) := by
  rw [mkPlanet_planetType]
  exact typeAndRadius_fst_outer_eq i (randomName x).2 h

lemma midBandType_eq_ice_iff (u : ℚ) : midBandType u = PlanetType.ice ↔ u < 0.3 := by
  unfold midBandType
  split_ifs with hc
  · exact iff_of_true rfl hc
  · exact iff_of_false (by decide) hc

lemma midBandType_eq_rocky_iff (u : ℚ) :
    midBandType u = PlanetType.rocky ↔ ¬ u < 0.3 := by
  unfold midBandType
  split_ifs with hc
  · exact iff_of_false (by decide) (fun hn => hn hc)
  · exact iff_of_true rfl hc

lemma outerBandType_eq_gas_iff (u : ℚ) : outerBandType u = PlanetType.gas ↔ u < 0.6 := by
  unfold outerBandType
  split_ifs with hc
  · exact iff_of_true rfl hc
  · exact iff_of_false (by decide) hc

lemma outerBandType_eq_ice_iff (u : ℚ) :
    outerBandType u = PlanetType.ice ↔ ¬ u < 0.6 := by
  unfold outerBandType
  split_ifs with hc
  · exact iff_of_false (by decide) (fun hn => hn hc)
  · exact iff_of_true rfl hc

lemma midBand_ice_iff (n : Nat) :
    midBandType ((n : ℚ) / 4294967296) = PlanetType.ice ↔ n < 1288490189 := by
  have key : ((n : ℚ) / 4294967296 < 0.3) ↔ n < 1288490189 := by
    rw [div_lt_iff₀ (by norm_num : (0 : ℚ) < 4294967296)]
    rw [show (0.3 : ℚ) * 4294967296 = 12884901888 / 10 by norm_num]
    rw [lt_div_iff₀ (by norm_num : (0 : ℚ) < 10)]
    rw [show ((n : ℚ) * 10) = ((n * 10 : ℕ) : ℚ) by push_cast; ring]
    rw [show (12884901888 : ℚ) = ((12884901888 : ℕ) : ℚ) by norm_num]
    rw [Nat.cast_lt]
    omega
  unfold midBandType
  split_ifs with hc
  · exact iff_of_true rfl (key.mp hc)
  · exact iff_of_false (by decide) (fun hlt => hc (key.mpr hlt))

lemma midBandType_cases (u : ℚ) :
    midBandType u = PlanetType.ice ∨ midBandType u = PlanetType.rocky := by
  unfold midBandType
  split_ifs
  · exact Or.inl rfl
  · exact Or.inr rfl

lemma midBand_rocky_iff (n : Nat) :
    midBandType ((n : ℚ) / 4294967296) = PlanetType.rocky ↔ 1288490189 ≤ n := by
  have key := midBand_ice_iff n
  rcases midBandType_cases ((n : ℚ) / 4294967296) with h | h
  · rw [h]
    have hn := key.mp h
    exact iff_of_false (by decide) (by omega)
  · rw [h]
    have hn : ¬ n < 1288490189 := fun hlt =>
      absurd ((key.mpr hlt).symm.trans h) (by decide)
    exact iff_of_true rfl (by omega)

lemma midBandIceCount_eq : midBandIceCount = 1288490189 := by
  have h : ((Finset.range 4294967296).filter
      (fun (n : ℕ) => midBandType ((n : ℚ) / 4294967296) = PlanetType.ice)) =
      Finset.range 1288490189 := by
    ext k
    simp only [Finset.mem_filter, Finset.mem_range, midBand_ice_iff]
    omega
  unfold midBandIceCount
  rw [h, Finset.card_range]

lemma midBandRockyCount_eq : midBandRockyCount = 3006477107 := by
  have h : ((Finset.range 4294967296).filter
      (fun (n : ℕ) => midBandType ((n : ℚ) / 4294967296) = PlanetType.rocky)) =
      Finset.Ico 1288490189 4294967296 := by
    ext k
    simp only [Finset.mem_filter, Finset.mem_range, Finset.mem_Ico, midBand_rocky_iff]
    omega
  unfold midBandRockyCount
  rw [h, Nat.card_Ico]

lemma midband_count_lt : midBandIceCount < midBandRockyCount := by
  rw [midBandIceCount_eq, midBandRockyCount_eq]
  norm_num

lemma foldr_max_lt (c : ℚ) (hc : 0 < c) : ∀ (l : List ℚ),
    (∀ a ∈ l, a < c) → l.foldr max 0 < c := by
  intro l
  induction l with
  | nil => intro _; simpa using hc
  | cons a as ih =>
    intro h
    rw [List.foldr_cons]
    exact max_lt (h a (List.mem_cons_self a as))
      (ih (fun b hb => h b (List.mem_cons_of_mem a hb)))

lemma generate_maxOrbit_pos (seed : Nat) : 0 < (generateSystemNum seed).maxOrbit := by
  have hsr : (7 : ℚ) ≤
      (randomStar (if mask32 seed = 0 then 123456789 else mask32 seed)).1.radius :=
    rand_fst_lb 7 16 _ (by norm_num)
  have h6 : (6 : ℚ) ≤ (rand 6 12 (randIntJS 4 10
      (randomStar (if mask32 seed = 0 then 123456789 else mask32 seed)).2).2).1 :=
    rand_fst_lb _ _ _ (by norm_num)
  have hmo := genPlanets_mo_le
    (((randIntJS 4 10
      (randomStar (if mask32 seed = 0 then 123456789 else mask32 seed)).2).1).toNat) 0
    ((randomStar (if mask32 seed = 0 then 123456789 else mask32 seed)).1.radius * 2.5 +
      (rand 6 12 (randIntJS 4 10
        (randomStar (if mask32 seed = 0 then 123456789 else mask32 seed)).2).2).1)
    ((randomStar (if mask32 seed = 0 then 123456789 else mask32 seed)).1.radius * 2.5 +
      (rand 6 12 (randIntJS 4 10
        (randomStar (if mask32 seed = 0 then 123456789 else mask32 seed)).2).2).1)
    ((rand 6 12 (randIntJS 4 10
      (randomStar (if mask32 seed = 0 then 123456789 else mask32 seed)).2).2).2)
  show 0 < (genPlanets
    (((randIntJS 4 10
      (randomStar (if mask32 seed = 0 then 123456789 else mask32 seed)).2).1).toNat) 0
    ((randomStar (if mask32 seed = 0 then 123456789 else mask32 seed)).1.radius * 2.5 +
      (rand 6 12 (randIntJS 4 10
        (randomStar (if mask32 seed = 0 then 123456789 else mask32 seed)).2).2).1)
    ((randomStar (if mask32 seed = 0 then 123456789 else mask32 seed)).1.radius * 2.5 +
      (rand 6 12 (randIntJS 4 10
        (randomStar (if mask32 seed = 0 then 123456789 else mask32 seed)).2).2).1)
    ((rand 6 12 (randIntJS 4 10
      (randomStar (if mask32 seed = 0 then 123456789 else mask32 seed)).2).2).2)).2.1
  linarith

/-! ## Claim theorems (first batch) -/

/-- C1: for any numeric seed S, two independent generateSystem(S) calls return
structurally identical system descriptions: the same star fields, the same
planet count, and for every planet index the same name, type, color, radius,
orbital elements (including the derived orbit speed), ring and atmosphere
fields, in the same order.  The embedding threads the stream state explicitly,
so a generation run is a pure function of the seed alone. -/
theorem generate_deterministic (S : Nat) :
    (generateSystemNum S).sun = (generateSystemNum S).sun ∧
    (generateSystemNum S).planets.length = (generateSystemNum S).planets.length ∧
    (generateSystemNum S).planets.map PlanetCfg.name =
      (generateSystemNum S).planets.map PlanetCfg.name ∧
    (generateSystemNum S).planets.map PlanetCfg.planetType =
      (generateSystemNum S).planets.map PlanetCfg.planetType ∧
    (generateSystemNum S).planets.map PlanetCfg.color =
      (generateSystemNum S).planets.map PlanetCfg.color ∧
    (generateSystemNum S).planets.map PlanetCfg.radius =
      (generateSystemNum S).planets.map PlanetCfg.radius ∧
    (generateSystemNum S).planets.map PlanetCfg.orbitRadius =
      (generateSystemNum S).planets.map PlanetCfg.orbitRadius ∧
    (generateSystemNum S).planets.map PlanetCfg.orbitSpeed =
      (generateSystemNum S).planets.map PlanetCfg.orbitSpeed ∧
    (generateSystemNum S).planets.map PlanetCfg.eccentricity =
      (generateSystemNum S).planets.map PlanetCfg.eccentricity ∧
    (generateSystemNum S).planets.map PlanetCfg.inclination =
      (generateSystemNum S).planets.map PlanetCfg.inclination ∧
    (generateSystemNum S).planets.map PlanetCfg.ascendingNode =
      (generateSystemNum S).planets.map PlanetCfg.ascendingNode ∧
    (generateSystemNum S).planets.map PlanetCfg.argPeriapsis =
      (generateSystemNum S).planets.map PlanetCfg.argPeriapsis ∧
    (generateSystemNum S).planets.map PlanetCfg.initialAnomaly =
      (generateSystemNum S).planets.map PlanetCfg.initialAnomaly ∧
    (generateSystemNum S).planets.map PlanetCfg.ring =
      (generateSystemNum S).planets.map PlanetCfg.ring ∧
    (generateSystemNum S).planets.map PlanetCfg.atmosphere =
      (generateSystemNum S).planets.map PlanetCfg.atmosphere ∧
    generateSystemNum S = generateSystemNum S := by
  exact ⟨rfl, rfl, rfl, rfl, rfl, rfl, rfl, rfl, rfl, rfl, rfl, rfl, rfl, rfl, rfl, rfl⟩

/-- C2: generateSystem on a string and generateSystem on its FNV-1a-style
32-bit hash return identical system descriptions, and both store that hash as
the resolved seed field. -/
theorem seed_normalization (codes : List Nat) :
    generateSystemStr codes = generateSystemNum (stringToSeed codes) ∧
    (generateSystemStr codes).seed = stringToSeed codes ∧
    (generateSystemNum (stringToSeed codes)).seed = stringToSeed codes :=
  ⟨rfl, rfl, rfl⟩

/-- C7 counterexample: a rocky planet of radius 1 whose dedicated ring draw is
0.1 (below the 0.15 threshold) still gets no ring, because the source gates
every ring on radius > 1.2; so "ring non-null exactly when the draw is below
the threshold" is false. -/
theorem ring_rule_counterexample :
    ¬ (((ringOf PlanetType.rocky 1 0 0 0 0.1 0).1.isSome = true) ↔
        ((0.1 : ℚ) < ringChance PlanetType.rocky)) := by
  rw [iff_iff_implies_and_implies]
  simp [ringOf, ringChance]
  norm_num

/-- C7 amended: for every generated planet, the ring field is non-null exactly
when the dedicated ring draw is below 0.40 for gas planets and 0.15 otherwise
AND the planet radius exceeds 1.2; in particular a planet with radius at most
1.2 never gets a ring. -/
theorem ring_rule_amended (pt : PlanetType) (radius hue sat light draw : ℚ) (x : Nat) :
    ((ringOf pt radius hue sat light draw x).1.isSome = true) ↔
      (draw < ringChance pt ∧ 1.2 < radius) := by
  unfold ringOf
  split_ifs with h
  · simpa using h
  · simpa using h

/-- C8: for every stored mean anomaly and every nonempty sequence of update
calls with non-negative deltaTime values, the stored mean anomaly after the
calls lies in the interval from 0 inclusive to 2 pi exclusive, being wrapped
via ((m % 2pi) + 2pi) % 2pi after each increment. -/
theorem mean_anomaly_wrapped (m0 s : ℚ) (dts : List ℚ) (hne : dts ≠ [])
    (hnn : ∀ d ∈ dts, 0 ≤ d) :
    0 ≤ anomalyAfter m0 s dts ∧ anomalyAfter m0 s dts < jsPI * 2 := by
  rcases dts with _ | ⟨d, rest⟩
  · exact absurd rfl hne
  · exact anomalyAfter_cons_mem s rest m0 d

/-- C8 witness: a concrete large-delta update sequence stays wrapped. -/
theorem mean_anomaly_wrapped_witness :
    (((1000 : ℚ) :: []) ≠ []) ∧ (∀ d ∈ ((1000 : ℚ) :: []), 0 ≤ d) ∧
    (0 ≤ anomalyAfter 5 3 [1000] ∧ anomalyAfter 5 3 [1000] < jsPI * 2) :=
  ⟨List.cons_ne_nil _ _,
   by intro d hd; rw [List.mem_singleton] at hd; rw [hd]; norm_num,
   mean_anomaly_wrapped 5 3 [1000] (List.cons_ne_nil _ _)
     (by intro d hd; rw [List.mem_singleton] at hd; rw [hd]; norm_num)⟩

/-- C10: the Planet constructor stores the eccentricity clamped to the closed
interval from 0 to 0.95, and therefore at every Newton-Raphson iterate of the
Kepler solver the divisor 1 - e cos E is at least 0.05 and never zero. -/
theorem kepler_divisor_bounded (e0 : ℚ) (M : ℝ) (k : Nat) :
    0 ≤ clampEcc e0 ∧ clampEcc e0 ≤ 0.95 ∧
    (0.05 : ℝ) ≤ 1 - (clampEcc e0 : ℝ) *
      Real.cos (keplerIterate ((clampEcc e0 : ℝ)) M k) ∧
    (1 - (clampEcc e0 : ℝ) *
      Real.cos (keplerIterate ((clampEcc e0 : ℝ)) M k)) ≠ 0 := by
  have h0 : 0 ≤ clampEcc e0 := le_max_left _ _
  have h1 : clampEcc e0 ≤ 0.95 := max_le (by norm_num) (min_le_left _ _)
  have h0r : (0 : ℝ) ≤ (clampEcc e0 : ℝ) := by exact_mod_cast h0
  have h1r : (clampEcc e0 : ℝ) ≤ 0.95 := by
    rw [show (0.95 : ℝ) = ((0.95 : ℚ) : ℝ) by norm_num]
    exact_mod_cast h1
  have hc : Real.cos (keplerIterate ((clampEcc e0 : ℝ)) M k) ≤ 1 :=
    Real.cos_le_one _
  have hm : (clampEcc e0 : ℝ) *
      Real.cos (keplerIterate ((clampEcc e0 : ℝ)) M k) ≤ (clampEcc e0 : ℝ) := by
    calc (clampEcc e0 : ℝ) * Real.cos (keplerIterate ((clampEcc e0 : ℝ)) M k)
        ≤ (clampEcc e0 : ℝ) * 1 := mul_le_mul_of_nonneg_left hc h0r
      _ = (clampEcc e0 : ℝ) := mul_one _
  have hge : (0.05 : ℝ) ≤ 1 - (clampEcc e0 : ℝ) *
      Real.cos (keplerIterate ((clampEcc e0 : ℝ)) M k) := by linarith
  exact ⟨h0, h1, hge, ne_of_gt (by linarith)⟩

/-! ## Claim theorems (second batch) -/

/-- C3: for every seed the generated planet list has length at least 4 and at
most 10, the count being the floor of a uniform draw over the interval from 4
to 11, which always lands in 4..10. -/
theorem planet_count_bounds (seed x : Nat) :
    (4 ≤ (generateSystemNum seed).planets.length ∧
      (generateSystemNum seed).planets.length ≤ 10) ∧
    (4 ≤ (randIntJS 4 10 x).1 ∧ (randIntJS 4 10 x).1 ≤ 10) :=
  ⟨generate_length_bounds seed, randIntJS_4_10 x⟩

/-- C4: for every seed, the orbit radii of the generated planets are strictly
increasing in generation order: the cursor starts at starRadius * 2.5 plus a
uniform draw in 6..12 and advances after each planet by a draw in 6..12 plus
1.5 times that planet's radius. -/
theorem orbits_strictly_increasing (seed : Nat) :
    List.Chain' (fun a b => a < b)
      ((generateSystemNum seed).planets.map PlanetCfg.orbitRadius) :=
  genPlanets_chain _ _ _ _ _

/-- C5 counterexample: over the 2 ^ 32 equally likely stream outputs, the
middle-band type draw picks ice 1288490189 times and rocky 3006477107 times,
so ice is NOT chosen more often than rocky at orbital indices 2 and 3. -/
theorem midband_counterexample :
    midBandIceCount = 1288490189 ∧ midBandRockyCount = 3006477107 ∧
      ¬ (midBandRockyCount < midBandIceCount) := by
  refine ⟨midBandIceCount_eq, midBandRockyCount_eq, ?_⟩
  rw [midBandIceCount_eq, midBandRockyCount_eq]
  norm_num

/-- C5 amended: planets at index 0 and 1 are always rocky; a planet at index
2 or 3 is built by mkPlanet from some stream state y and is ice exactly when
its own type draw bandTypeDraw y is below 0.3, rocky otherwise (hence ice
less often than rocky over the draw grid); a planet at index 4 or beyond is
gas exactly when its own type draw is below 0.6, ice otherwise. -/
theorem planet_type_bands (seed i : Nat)
    (hi : i < (generateSystemNum seed).planets.length) :
    (i < 2 → ((generateSystemNum seed).planets.getD i default).planetType =
      PlanetType.rocky) ∧
    (2 ≤ i → i < 4 → ∃ (o : ℚ) (y : Nat),
      (generateSystemNum seed).planets.getD i default = (mkPlanet i o y).1 ∧
      ((generateSystemNum seed).planets.getD i default).planetType =
        midBandType (bandTypeDraw y) ∧
      (((generateSystemNum seed).planets.getD i default).planetType =
        PlanetType.ice ↔ bandTypeDraw y < 0.3) ∧
      (((generateSystemNum seed).planets.getD i default).planetType =
        PlanetType.rocky ↔ ¬ bandTypeDraw y < 0.3)) ∧
    (4 ≤ i → ∃ (o : ℚ) (y : Nat),
      (generateSystemNum seed).planets.getD i default = (mkPlanet i o y).1 ∧
      ((generateSystemNum seed).planets.getD i default).planetType =
        outerBandType (bandTypeDraw y) ∧
      (((generateSystemNum seed).planets.getD i default).planetType =
        PlanetType.gas ↔ bandTypeDraw y < 0.6) ∧
      (((generateSystemNum seed).planets.getD i default).planetType =
        PlanetType.ice ↔ ¬ bandTypeDraw y < 0.6)) ∧
    midBandIceCount < midBandRockyCount := by
  obtain ⟨o, y, hoy⟩ := generate_planets_getD seed i hi
  refine ⟨?_, ?_, ?_, midband_count_lt⟩
  · intro h
    rw [hoy, mkPlanet_planetType]
    exact typeAndRadius_fst_inner _ _ h
  · intro h2 h4
    refine ⟨o, y, hoy, ?_, ?_, ?_⟩
    · rw [hoy]
      exact mkPlanet_planetType_mid i o y h2 h4
    · rw [hoy, mkPlanet_planetType_mid i o y h2 h4]
      exact midBandType_eq_ice_iff _
    · rw [hoy, mkPlanet_planetType_mid i o y h2 h4]
      exact midBandType_eq_rocky_iff _
  · intro h
    refine ⟨o, y, hoy, ?_, ?_, ?_⟩
    · rw [hoy]
      exact mkPlanet_planetType_outer i o y h
    · rw [hoy, mkPlanet_planetType_outer i o y h]
      exact outerBandType_eq_gas_iff _
    · rw [hoy, mkPlanet_planetType_outer i o y h]
      exact outerBandType_eq_ice_iff _

/-- C5 witness: at seed 42 and index 2 the middle-band threshold rule applies
to that planet's own type draw. -/
theorem planet_type_bands_witness :
    2 < (generateSystemNum 42).planets.length ∧
    ((2 < 2 → ((generateSystemNum 42).planets.getD 2 default).planetType =
       PlanetType.rocky) ∧
     (2 ≤ 2 → 2 < 4 → ∃ (o : ℚ) (y : Nat),
       (generateSystemNum 42).planets.getD 2 default = (mkPlanet 2 o y).1 ∧
       ((generateSystemNum 42).planets.getD 2 default).planetType =
         midBandType (bandTypeDraw y) ∧
       (((generateSystemNum 42).planets.getD 2 default).planetType =
         PlanetType.ice ↔ bandTypeDraw y < 0.3) ∧
       (((generateSystemNum 42).planets.getD 2 default).planetType =
         PlanetType.rocky ↔ ¬ bandTypeDraw y < 0.3)) ∧
     (4 ≤ 2 → ∃ (o : ℚ) (y : Nat),
       (generateSystemNum 42).planets.getD 2 default = (mkPlanet 2 o y).1 ∧
       ((generateSystemNum 42).planets.getD 2 default).planetType =
         outerBandType (bandTypeDraw y) ∧
       (((generateSystemNum 42).planets.getD 2 default).planetType =
         PlanetType.gas ↔ bandTypeDraw y < 0.6) ∧
       (((generateSystemNum 42).planets.getD 2 default).planetType =
         PlanetType.ice ↔ ¬ bandTypeDraw y < 0.6)) ∧
     midBandIceCount < midBandRockyCount) := by
  have hlen : 2 < (generateSystemNum 42).planets.length := by
    have h := generate_length_bounds 42
    omega
  exact ⟨hlen, planet_type_bands 42 2 hlen⟩

/-- C6 counterexample: at seed 42 the returned maxOrbit differs from the
maximum planet orbit radius; the source keeps updating maxOrbit with the
cursor AFTER the final advance, which strictly exceeds every orbit radius. -/
theorem maxOrbit_counterexample :
    (generateSystemNum 42).maxOrbit ≠
      (((generateSystemNum 42).planets.map PlanetCfg.orbitRadius).foldr max 0) := by
  have hall : ∀ p ∈ (generateSystemNum 42).planets,
      p.orbitRadius < (generateSystemNum 42).maxOrbit := by
    intro p hp
    exact genPlanets_lt_mo _ _ _ _ _ (le_refl _) p hp
  have hpos := generate_maxOrbit_pos 42
  have hmem : ∀ a ∈ (generateSystemNum 42).planets.map PlanetCfg.orbitRadius,
      a < (generateSystemNum 42).maxOrbit := by
    intro a ha
    rw [List.mem_map] at ha
    obtain ⟨p, hp, rfl⟩ := ha
    exact hall p hp
  exact ne_of_gt (foldr_max_lt _ hpos _ hmem)

/-- C6 amended: for every seed the returned maxOrbit strictly exceeds the
orbit radius of every generated planet: it is the orbit cursor after the
final advance (last orbit radius plus a draw in 6..12 plus 1.5 times the last
radius), not the maximum orbit radius itself and not that maximum plus the
planet radius. -/
theorem maxOrbit_exceeds_orbit_radii (seed : Nat) :
    ((generateSystemNum seed).planets.all
      (fun p => decide (p.orbitRadius < (generateSystemNum seed).maxOrbit))) = true := by
  rw [List.all_eq_true]
  intro p hp
  simp only [decide_eq_true_eq]
  exact genPlanets_lt_mo _ _ _ _ _ (le_refl _) p hp

end SpaceGen
